import Mathlib

set_option maxRecDepth 20000

/-!
Metric Hub — shallow embedding and verification.

This file embeds the core of the Metric Hub service
(`metric-hub/internal/aggregator.go`, `metric-hub/internal/types.go`,
`metric-hub/internal/validator.go`, `metric-hub/cmd/api.go`) in Lean 4 and
proves the behavioural properties claimed by its specification.

Modelling conventions:
* Go `float64` metric values are modelled as exact rationals (`ℚ`); the
  threshold constants (0.5, 0.85, 0.9, 0.4, 0.6) and all comparisons carry
  over verbatim.
* `time.Time` payload timestamps are modelled as an `Int`, with `0` standing
  for Go's zero time (the only property the validator inspects).
* The Redis store is a record: the `cost:latest` slot, an association list
  for the `trigger:cooldown:<name>` keys (values are the stored strings),
  and the `queue:agent:jobs` list (LPUSH prepends).  Transport failures of
  `PublishJob` are drawn from an explicit oracle `pubOks : List Bool`
  (head = outcome of the next push attempt, exhausted oracle = success);
  a failure of the `SET cost:latest` write is the flag `setCostOk`.
* Background goroutines (`CheckCostThreshold`, `CheckForecastThreshold`) are
  sequentialised: the handler's result store is the store after the spawned
  evaluation has run.  The wall clock observed by `time.Now().Unix()` is an
  explicit `now : Int` parameter.
-/

/-- Model of `internal.Resources` (types.go): a CPU/memory pair. -/
structure Resources where
  CPUCores : ℚ
  MemoryMB : ℚ
deriving DecidableEq, Repr

/-- Model of `internal.CostDeployment` (types.go). -/
structure CostDeployment where
  Name : String
  CurrentRequests : Resources
  CurrentUsage : Resources
  PredictPeak24h : Option Resources
deriving DecidableEq, Repr

/-- Model of `internal.ForecastDeployment` (types.go). -/
structure ForecastDeployment where
  Name : String
  PredictPeak24h : Resources
deriving DecidableEq, Repr

/-- Model of `internal.ClusterInfo` (types.go). -/
structure ClusterInfo where
  VmCount : ℚ
  Cost : ℚ
deriving DecidableEq, Repr

/-- Model of `internal.CostPayload` (types.go).  `Timestamp` models `time.Time`
with `0` as the zero value. -/
structure CostPayload where
  Timestamp : Int
  Namespace : String
  ClusterInfo : ClusterInfo
  Deployments : List CostDeployment
deriving DecidableEq, Repr

/-- Model of `internal.ForecastPayload` (types.go). -/
structure ForecastPayload where
  Timestamp : Int
  Namespace : String
  Deployments : List ForecastDeployment
deriving DecidableEq, Repr

/-- Model of `internal.AgentJob` (types.go). -/
structure AgentJob where
  Reason : String
  Namespace : String
  Deployment : CostDeployment
  ClusterInfo : ClusterInfo
deriving DecidableEq, Repr

/-! ## Validator

`validator.go` runs `go-playground/validator` over the struct tags of
`types.go`.  The tag semantics used there: `required` on a string is
non-emptiness, on a float64 it is non-zeroness, on a `time.Time` it is
non-zero time, `gt=0` is strict positivity, `eq=default` is string
equality, `min=1` on a slice is non-emptiness, and nested structs (also
through non-nil pointers such as `PredictPeak24h`) are validated
recursively. -/

/-- Validation of `Resources`: both fields are tagged `required,gt=0`. -/
def validResources (r : Resources) : Bool :=
  decide (0 < r.CPUCores) && decide (0 < r.MemoryMB)

/-- Validation of `CostDeployment`: `Name` is `required`; both `Resources`
fields validate recursively; a present (non-nil) `PredictPeak24h` is also
dived into. -/
def validCostDeployment (d : CostDeployment) : Bool :=
  (d.Name != "") && validResources d.CurrentRequests &&
    validResources d.CurrentUsage &&
    (match d.PredictPeak24h with
     | none => true
     | some r => validResources r)

/-- Validation of `ClusterInfo`: both fields are tagged `required,gt=0`. -/
def validClusterInfo (ci : ClusterInfo) : Bool :=
  decide (0 < ci.VmCount) && decide (0 < ci.Cost)

/-- Model of `Validate` on a `CostPayload` (validator.go + the tags of types.go). -/
def validCostPayload (p : CostPayload) : Bool :=
  (p.Timestamp != 0) && (p.Namespace == "default") &&
    validClusterInfo p.ClusterInfo &&
    !p.Deployments.isEmpty && p.Deployments.all validCostDeployment

/-- Validation of `ForecastDeployment`. -/
def validForecastDeployment (d : ForecastDeployment) : Bool :=
  (d.Name != "") && validResources d.PredictPeak24h

/-- Model of `Validate` on a `ForecastPayload`. -/
def validForecastPayload (p : ForecastPayload) : Bool :=
  (p.Timestamp != 0) && (p.Namespace == "default") &&
    !p.Deployments.isEmpty && p.Deployments.all validForecastDeployment


/-! ## Decimal integer strings

`executePush` stores `time.Now().Unix()` under the cooldown key; go-redis
serialises the `int64` with `strconv.FormatInt(·, 10)`.  `handleTrigger`
reads the slot back and decodes it with `strconv.ParseInt(·, 10, 64)`.
The two functions below model that round trip.  `natDigitsAux` is
fuel-structured so concrete values reduce in the kernel. -/

/-- Little-endian base-10 digits of `n`, with explicit fuel (`fuel ≥ n`
suffices). -/
def natDigitsAux : Nat → Nat → List Nat
  | 0, _ => []
  | _, 0 => []
  | fuel + 1, n + 1 => ((n + 1) % 10) :: natDigitsAux fuel ((n + 1) / 10)

/-- Little-endian base-10 digits of `n` (empty for 0). -/
def natDigits (n : Nat) : List Nat := natDigitsAux n n

/-- The decimal string of a natural number, as `strconv.FormatInt` writes
it. -/
def natToDecString (n : Nat) : String :=
  if n = 0 then "0"
  else ⟨(natDigits n).reverse.map (fun d => Char.ofNat (48 + d))⟩

/-- The decimal string go-redis stores for an `int64` value. -/
def int64ToString (n : Int) : String :=
  if n < 0 then "-" ++ natToDecString (-n).toNat else natToDecString n.toNat

/-- The numeric value of an ASCII digit, `none` for any other character
(`strconv.ParseInt` rejects the string as soon as one appears). -/
def decDigitVal (c : Char) : Option Nat :=
  if 48 ≤ c.toNat ∧ c.toNat ≤ 57 then some (c.toNat - 48) else none

/-- Decode a run of ASCII digits, most significant first; `none` if any
character is not a digit. -/
def decodeDigits : List Char → Option (List Nat)
  | [] => some []
  | c :: cs =>
    match decDigitVal c, decodeDigits cs with
    | some d, some ds => some (d :: ds)
    | _, _ => none

/-- Value of a non-empty digit run (most significant digit first). -/
def parseDecNat (cs : List Char) : Option Nat :=
  if cs.isEmpty then none
  else (decodeDigits cs).map (fun ds => Nat.ofDigits 10 ds.reverse)

/-- The value `int64Max = 2^63 - 1`, the upper bound `strconv.ParseInt(s, 10, 64)`
enforces. -/
def int64Max : Int := 9223372036854775807

/-- The value `int64Min = -2^63`. -/
def int64Min : Int := -9223372036854775808

/-- Input-output model of Go's `strconv.ParseInt(s, 10, 64)`: an optional
sign followed by at least one ASCII digit, rejected (like Go's `ErrRange`
error) when the value leaves the `int64` range. -/
def parseInt64 (s : String) : Option Int :=
  match s.data with
  | [] => none
  | c :: cs =>
    if c = '-' then
      match parseDecNat cs with
      | none => none
      | some n => if (-(n : Int)) < int64Min then none else some (-(n : Int))
    else if c = '+' then
      match parseDecNat cs with
      | none => none
      | some n => if int64Max < (n : Int) then none else some (n : Int)
    else
      match parseDecNat (c :: cs) with
      | none => none
      | some n => if int64Max < (n : Int) then none else some (n : Int)


/-! ## The Redis store

The aggregator touches three keys (`cost:latest`, `trigger:cooldown:<name>`,
`queue:agent:jobs`).  `costLatest` holds the decoded `CostPayload`
(`json.Marshal`/`json.Unmarshal` of the struct round-trip, so the stored
JSON string is identified with the payload it encodes).  `cooldown` is an
association list from full key name to the stored string.  `queue` is the
Redis list, most recently `LPUSH`ed element first.  `pubOks` is the oracle
of outcomes of successive `PublishJob` attempts (exhausted oracle =
success); `setCostOk` is the outcome of the next `SET cost:latest`. -/

structure Store where
  costLatest : Option CostPayload
  cooldown : List (String × String)
  queue : List AgentJob
  pubOks : List Bool
  setCostOk : Bool
deriving DecidableEq, Repr

/-- Look a key up in an association list (first binding wins). -/
def lookupAssoc (l : List (String × String)) (k : String) : Option String :=
  match l with
  | [] => none
  | (k2, v) :: rest => if k2 == k then some v else lookupAssoc rest k

/-- Overwrite (or insert) a key in an association list. -/
def setAssoc (l : List (String × String)) (k v : String) : List (String × String) :=
  match l with
  | [] => [(k, v)]
  | (k2, v2) :: rest =>
    if k2 == k then (k2, v) :: rest else (k2, v2) :: setAssoc rest k v

/-- The key `fmt.Sprintf("trigger:cooldown:%s", name)` of aggregator.go. -/
def cooldownKey (name : String) : String := "trigger:cooldown:" ++ name

/-- Pop the outcome of the next `PublishJob` attempt from the oracle. -/
def popPub (st : Store) : Bool × Store :=
  (st.pubOks.headD true, { st with pubOks := st.pubOks.tail })

/-! ## Aggregator: cost path (aggregator.go) -/

/-- Model of `executePush` (aggregator.go): build the `AgentJob`, `PublishJob` it to
`queue:agent:jobs`, and — only when the push returned no error — overwrite
the cooldown key with the current Unix time.  A failed push logs and
returns, leaving queue and cooldown untouched. -/
def executePush (now : Int) (cooldownKy : String) (c : CostDeployment)
    (reason ns : String) (info : ClusterInfo) (st : Store) : Store :=
  let job : AgentJob := ⟨reason, ns, c, info⟩
  let (ok, st') := popPub st
  if ok then
    { st' with
      queue := job :: st'.queue
      cooldown := setAssoc st'.cooldown cooldownKy (int64ToString now) }
  else st'

/-- Model of `handleTrigger` (aggregator.go): read `trigger:cooldown:<name>`; push
immediately when the key is absent (`redis.Nil`); drop the trigger when the
stored string fails `strconv.ParseInt`; drop it when the last trigger was
less than 1800 s ago; push otherwise. -/
def handleTrigger (now : Int) (c : CostDeployment) (reason ns : String)
    (info : ClusterInfo) (st : Store) : Store :=
  let key := cooldownKey c.Name
  match lookupAssoc st.cooldown key with
  | none => executePush now key c reason ns info st
  | some lastTriggerStr =>
    match parseInt64 lastTriggerStr with
    | none => st
    | some lastTrigger =>
      if now - lastTrigger < 1800 then st
      else executePush now key c reason ns info st

/-- The per-deployment body of `CheckCostThreshold`'s loop
(aggregator.go lines 83–114), as the reason it selects: skip when either
request is exactly zero, compute waste/utilisation guarded by `> 0` (the
local variables stay `0` otherwise), then run the memory-first,
waste-before-risk chain.  `none` means no trigger. -/
def costTriggerReason (d : CostDeployment) : Option String :=
  let reqCpu := d.CurrentRequests.CPUCores
  let useCpu := d.CurrentUsage.CPUCores
  let reqMem := d.CurrentRequests.MemoryMB
  let useMem := d.CurrentUsage.MemoryMB
  if reqCpu = 0 ∨ reqMem = 0 then none
  else
    let wasteCpu := if reqCpu > 0 then (reqCpu - useCpu) / reqCpu else 0
    let utilCpu := if reqCpu > 0 then useCpu / reqCpu else 0
    let wasteMem := if reqMem > 0 then (reqMem - useMem) / reqMem else 0
    let utilMem := if reqMem > 0 then useMem / reqMem else 0
    if wasteMem > 0.5 then some "High Memory Waste"
    else if utilMem > 0.85 then some "High Memory Risk"
    else if wasteCpu > 0.5 then some "High CPU Waste"
    else if utilCpu > 0.85 then some "High CPU Risk"
    else none

/-- One iteration of `CheckCostThreshold`'s loop: fire `handleTrigger` when
the chain selected a reason, otherwise leave the store alone. -/
def evalCostDeployment (now : Int) (ns : String) (info : ClusterInfo)
    (d : CostDeployment) (st : Store) : Store :=
  match costTriggerReason d with
  | none => st
  | some reason => handleTrigger now d reason ns info st

/-- Model of `CheckCostThreshold` (aggregator.go): the loop over
`p.Deployments` in payload order.  The 10 s context cancellation is a
concurrency concern left out of the sequential model. -/
def checkCostThreshold (now : Int) (ns : String) (info : ClusterInfo) :
    List CostDeployment → Store → Store
  | [], st => st
  | d :: rest, st =>
    checkCostThreshold now ns info rest (evalCostDeployment now ns info d st)

/-- Model of `SaveCostPayload` (aggregator.go): `SET cost:latest`, surfacing a
transport failure to the caller; on success the spawned
`CheckCostThreshold` goroutine runs (sequentialised here).  Returns
`true` together with the resulting store iff the `SET` succeeded. -/
def saveCostPayload (now : Int) (p : CostPayload) (st : Store) : Bool × Store :=
  if st.setCostOk then
    (true,
      checkCostThreshold now p.Namespace p.ClusterInfo p.Deployments
        { st with costLatest := some p })
  else (false, st)

/-! ## Aggregator: forecast path (aggregator.go) -/

/-- Model of `executeForecastPush` (aggregator.go): populate the snapshot
deployment's `PredictPeak24h` slot from the forecast, build the job and
`PublishJob` it.  A failed push only logs; no cooldown key is touched on
either outcome. -/
def executeForecastPush (c : CostDeployment) (reason ns : String)
    (info : ClusterInfo) (prediction : Resources) (st : Store) : Store :=
  let c' := { c with PredictPeak24h := some prediction }
  let job : AgentJob := ⟨reason, ns, c', info⟩
  let (ok, st') := popPub st
  if ok then { st' with queue := job :: st'.queue } else st'

/-- Model of `evaluateForecastLogic` (aggregator.go): CPU branch first (capacity
risk, else safe downscale), memory branch only if the CPU branch pushed
nothing.  Note the source reads `usageMem` from `c.CurrentRequests.MemoryMB`
— the requests field, not `CurrentUsage` — which this embedding reproduces
verbatim. -/
def evaluateForecastLogic (f : ForecastDeployment) (c : CostDeployment)
    (ns : String) (info : ClusterInfo) (st : Store) : Store :=
  let reqCpu := c.CurrentRequests.CPUCores
  let usageCpu := c.CurrentUsage.CPUCores
  let predCpu := f.PredictPeak24h.CPUCores
  let reqMem := c.CurrentRequests.MemoryMB
  let usageMem := c.CurrentRequests.MemoryMB
  let predMem := f.PredictPeak24h.MemoryMB
  if reqCpu > 0 ∧ predCpu > reqCpu * 0.9 then
    executeForecastPush c "Predicted Capacity Risk (CPU)" ns info f.PredictPeak24h st
  else if reqCpu > 0 ∧ (reqCpu - usageCpu) / reqCpu > 0.4 ∧ predCpu < reqCpu * 0.6 then
    executeForecastPush c "Predicted Safe Downscale (CPU)" ns info f.PredictPeak24h st
  else if reqMem > 0 ∧ predMem > reqMem * 0.9 then
    executeForecastPush c "Predicted Capacity Risk (Memory)" ns info f.PredictPeak24h st
  else if reqMem > 0 ∧ (reqMem - usageMem) / reqMem > 0.4 ∧ predMem < reqMem * 0.6 then
    executeForecastPush c "Predicted Safe Downscale (Memory)" ns info f.PredictPeak24h st
  else st

/-- Overwrite (or insert) a deployment under its name. -/
def setCostAssoc (l : List (String × CostDeployment)) (k : String)
    (v : CostDeployment) : List (String × CostDeployment) :=
  match l with
  | [] => [(k, v)]
  | (k2, v2) :: rest =>
    if k2 == k then (k2, v) :: rest else (k2, v2) :: setCostAssoc rest k v

/-- Map lookup. -/
def lookupCostAssoc (l : List (String × CostDeployment)) (k : String) :
    Option CostDeployment :=
  match l with
  | [] => none
  | (k2, v) :: rest => if k2 == k then some v else lookupCostAssoc rest k

/-- The Go map `costMap[costDep.Name] = costDep` built by
`CheckForecastThreshold` over the snapshot's deployments in order (a later
entry with the same name overwrites an earlier one). -/
def buildCostMap (acc : List (String × CostDeployment)) :
    List CostDeployment → List (String × CostDeployment)
  | [] => acc
  | d :: rest => buildCostMap (setCostAssoc acc d.Name d) rest

/-- The loop of `CheckForecastThreshold` over the forecast deployments:
evaluate each entry that has a matching snapshot entry, skip (with a log
line) those that do not. -/
def forecastLoop (costMap : List (String × CostDeployment)) (ns : String)
    (info : ClusterInfo) : List ForecastDeployment → Store → Store
  | [], st => st
  | f :: rest, st =>
    match lookupCostAssoc costMap f.Name with
    | some costDep =>
      forecastLoop costMap ns info rest (evaluateForecastLogic f costDep ns info st)
    | none => forecastLoop costMap ns info rest st

/-- Model of `CheckForecastThreshold` (aggregator.go): decode the snapshot (the
decoded `CostPayload` is passed directly here), index its deployments by
name, then walk the forecast entries in order. -/
def checkForecastThreshold (p : ForecastPayload) (costPayload : CostPayload)
    (st : Store) : Store :=
  forecastLoop (buildCostMap [] costPayload.Deployments) costPayload.Namespace
    costPayload.ClusterInfo p.Deployments st

/-- Model of `FetchPayload` (aggregator.go): `GET cost:latest`; `redis.Nil` becomes
the "latest cost data not found" error (`none` here); on success the
spawned `CheckForecastThreshold` goroutine runs (sequentialised).  The
model assumes the read itself does not fail in transport. -/
def fetchPayload (p : ForecastPayload) (st : Store) : Option Store :=
  match st.costLatest with
  | none => none
  | some costPayload => some (checkForecastThreshold p costPayload st)

/-! ## HTTP front-end (api.go)

`http.ResponseWriter` is modelled by its two observable effects: the status
line (fixed by the first `WriteHeader`; later calls are superfluous and
ignored, as in `net/http`) and the accumulated body.  `http.Error`
writes the status and the message followed by a newline.  JSON decoding of
the request body is abstracted as an `Option` payload (`none` = malformed
JSON). -/

structure RespWriter where
  status : Option Nat
  body : String
deriving DecidableEq, Repr

/-- The zero `httptest.ResponseRecorder`: nothing written yet. -/
def freshWriter : RespWriter := ⟨none, ""⟩

/-- Model of `w.WriteHeader(code)`: only the first call sets the status. -/
def writeHeader (w : RespWriter) (code : Nat) : RespWriter :=
  match w.status with
  | some _ => w
  | none => { w with status := some code }

/-- Model of `w.Write(s)`: append to the body. -/
def writeBody (w : RespWriter) (s : String) : RespWriter :=
  { w with body := w.body ++ s }

/-- Model of `http.Error(w, msg, code)`. -/
def httpError (w : RespWriter) (msg : String) (code : Nat) : RespWriter :=
  writeBody (writeHeader w code) (msg ++ "\n")

/-- Model of `handleCostEngine` (api.go): decode → `Validate` → `SaveCostPayload`
(400 / 400 / 500 on the respective failures) → 201 "Cost payload
accepted". -/
def handleCostEngine (now : Int) (body : Option CostPayload) (st : Store) :
    RespWriter × Store :=
  match body with
  | none => (httpError freshWriter "Bad request" 400, st)
  | some payload =>
    if !validCostPayload payload then
      (httpError freshWriter "Invalid JSON format" 400, st)
    else
      match saveCostPayload now payload st with
      | (false, st') => (httpError freshWriter "Failed to save" 500, st')
      | (true, st') =>
        (writeBody (writeHeader freshWriter 201) "Cost payload accepted", st')

/-- Model of `handleForecast` (api.go): decode → `Validate` → `FetchPayload`.  When
`FetchPayload` errors the handler calls `http.Error(w, "Failed to process
forecast", http.StatusBadRequest)` and — there is no `return` on that
branch — falls through to the `WriteHeader(201)`/`Write` below it, whose
status write is superfluous.  The response status is therefore 400. -/
def handleForecast (body : Option ForecastPayload) (st : Store) :
    RespWriter × Store :=
  match body with
  | none => (httpError freshWriter "Bad request" 400, st)
  | some payload =>
    if !validForecastPayload payload then
      (httpError freshWriter "Invalid JSON format" 400, st)
    else
      match fetchPayload payload st with
      | none =>
        (writeBody
          (writeHeader (httpError freshWriter "Failed to process forecast" 400) 201)
          "Forecast payload accepted", st)
      | some st' =>
        (writeBody (writeHeader freshWriter 201) "Forecast payload accepted", st')

/-! ## Supporting lemmas: the decimal round trip

`executePush` writes `int64ToString now` under the cooldown key and
`handleTrigger` decodes it with `parseInt64`; the cooldown arithmetic of
§4.4.5 depends on the written string decoding back to the written value. -/

theorem ofDigits_natDigitsAux (fuel : Nat) :
    ∀ n : Nat, n ≤ fuel → Nat.ofDigits 10 (natDigitsAux fuel n) = n := by
  induction fuel with
  | zero =>
    intro n hn
    interval_cases n
    simp [natDigitsAux, Nat.ofDigits_nil]
  | succ fuel ih =>
    intro n hn
    match n with
    | 0 => simp [natDigitsAux, Nat.ofDigits_nil]
    | m + 1 =>
      have hdiv : (m + 1) / 10 ≤ fuel :=
        Nat.le_of_lt_succ (Nat.lt_of_lt_of_le (Nat.div_lt_self (Nat.succ_pos m) (by norm_num)) hn)
      rw [natDigitsAux, Nat.ofDigits_cons, ih _ hdiv]
      omega

theorem natDigitsAux_lt_ten (fuel : Nat) :
    ∀ n d : Nat, d ∈ natDigitsAux fuel n → d < 10 := by
  induction fuel with
  | zero => intro n d hd; simp [natDigitsAux] at hd
  | succ fuel ih =>
    intro n d hd
    match n with
    | 0 => simp [natDigitsAux] at hd
    | m + 1 =>
      rw [natDigitsAux] at hd
      rcases List.mem_cons.mp hd with h | h
      · subst h; exact Nat.mod_lt _ (by norm_num)
      · exact ih _ _ h

theorem ofDigits_natDigits (n : Nat) : Nat.ofDigits 10 (natDigits n) = n :=
  ofDigits_natDigitsAux n n le_rfl

theorem natDigits_lt_ten {n d : Nat} (hd : d ∈ natDigits n) : d < 10 :=
  natDigitsAux_lt_ten n n d hd

theorem decDigitVal_encode : ∀ d : Nat, d < 10 →
    decDigitVal (Char.ofNat (48 + d)) = some d ∧
      Char.ofNat (48 + d) ≠ '-' ∧ Char.ofNat (48 + d) ≠ '+' := by
  with_unfolding_all decide

theorem decodeDigits_encode :
    ∀ l : List Nat, (∀ d ∈ l, d < 10) →
      decodeDigits (l.map (fun d => Char.ofNat (48 + d))) = some l := by
  intro l
  induction l with
  | nil => intro _; rfl
  | cons d ds ih =>
    intro hlt
    have hd := (decDigitVal_encode d (hlt d (List.mem_cons_self d ds))).1
    have hds := ih (fun x hx => hlt x (List.mem_cons_of_mem d hx))
    simp only [List.map_cons, decodeDigits, hd, hds]

theorem parseInt64_of_digit_chars (l : List Nat) (hne : l ≠ [])
    (hlt : ∀ d ∈ l, d < 10)
    (hle : (Nat.ofDigits 10 l.reverse : ℕ) ≤ 9223372036854775807) :
    parseInt64 ⟨l.map (fun d => Char.ofNat (48 + d))⟩ =
      some (((Nat.ofDigits 10 l.reverse : ℕ) : Int)) := by
  match l with
  | [] => exact absurd rfl hne
  | d :: ds =>
    have hd0 := decDigitVal_encode d (hlt d (List.mem_cons_self d ds))
    have hdec := decodeDigits_encode (d :: ds) hlt
    simp only [List.map_cons] at hdec
    have hrange : ¬ (int64Max < ((Nat.ofDigits 10 (d :: ds).reverse : ℕ) : Int)) := by
      have h2 := hle
      simp only [int64Max]
      omega
    simp only [parseInt64, List.map_cons, if_neg hd0.2.1, if_neg hd0.2.2,
      parseDecNat, List.isEmpty_cons, Bool.false_eq_true, if_false, hdec]
    rw [Option.map_some']
    simp only [hrange, if_false]

theorem parseInt64_int64ToString (t : Int) (h0 : 0 ≤ t) (h1 : t ≤ int64Max) :
    parseInt64 (int64ToString t) = some t := by
  rw [int64ToString, if_neg (not_lt.mpr h0)]
  rcases Nat.eq_zero_or_pos t.toNat with hz | hp
  · have ht : t = 0 := by omega
    subst ht
    show parseInt64 (natToDecString (Int.toNat 0)) = some 0
    with_unfolding_all decide
  · have ht0 : t.toNat ≠ 0 := Nat.pos_iff_ne_zero.mp hp
    rw [natToDecString, if_neg ht0]
    have hne : (natDigits t.toNat).reverse ≠ [] := by
      intro hcon
      have h2 : natDigits t.toNat = [] := by
        simpa using congrArg List.reverse hcon
      have h3 := ofDigits_natDigits t.toNat
      rw [h2, Nat.ofDigits_nil] at h3
      omega
    have hlt : ∀ d ∈ (natDigits t.toNat).reverse, d < 10 := by
      intro d hd
      exact natDigits_lt_ten (List.mem_reverse.mp hd)
    have hval : (Nat.ofDigits 10 (natDigits t.toNat).reverse.reverse : ℕ) = t.toNat := by
      rw [List.reverse_reverse]; exact ofDigits_natDigits t.toNat
    have hle : (Nat.ofDigits 10 (natDigits t.toNat).reverse.reverse : ℕ) ≤ 9223372036854775807 := by
      rw [hval]
      simp only [int64Max] at h1
      omega
    rw [parseInt64_of_digit_chars (natDigits t.toNat).reverse hne hlt hle, hval]
    congr 1
    omega

/-! ## Specification-side definitions used by the claims -/

/-- The §4.4.3 priority chain as the specification words it: the ordered
list of (label, fired?) pairs, with the waste/utilisation formulas written
directly over the deployment's fields. -/
def priorityChain (d : CostDeployment) : List (String × Bool) :=
  let rC := d.CurrentRequests.CPUCores
  let uC := d.CurrentUsage.CPUCores
  let rM := d.CurrentRequests.MemoryMB
  let uM := d.CurrentUsage.MemoryMB
  [("High Memory Waste", decide ((rM - uM) / rM > 0.5)),
   ("High Memory Risk", decide (uM / rM > 0.85)),
   ("High CPU Waste", decide ((rC - uC) / rC > 0.5)),
   ("High CPU Risk", decide (uC / rC > 0.85))]

/-- First match of the priority chain, as the claim words it. -/
def firstMatchReason (d : CostDeployment) : Option String :=
  ((priorityChain d).find? (fun pr => pr.2)).map (fun pr => pr.1)

/-- A single invocation of `handleTrigger` for some deployment: the wall
clock it observes and the trigger context it carries. -/
structure TriggerCall where
  now : Int
  reason : String
  ns : String
  info : ClusterInfo

/-- A sequence of cost-derived trigger invocations for the deployment `d`,
folded over the store. -/
def runTriggers (d : CostDeployment) : List TriggerCall → Store → Store
  | [], st => st
  | e :: es, st => runTriggers d es (handleTrigger e.now d e.reason e.ns e.info st)

/-- Modelled from the spec: the §4.4.4 memory safe-downscale condition as
the specification prescribes it, with `usageM` read from
`CurrentUsage.MemoryMB` (the source instead reads `CurrentRequests.MemoryMB`;
§9 flags that as a bug). -/
def specMemorySafeDownscale (f : ForecastDeployment) (c : CostDeployment) : Bool :=
  let rM := c.CurrentRequests.MemoryMB
  let uM := c.CurrentUsage.MemoryMB
  let pM := f.PredictPeak24h.MemoryMB
  decide (0 < rM) && decide ((rM - uM) / rM > 0.4) && decide (pM < rM * 0.6)

/-! ## C3 — cost threshold priority chain -/

/-- C3. For a deployment with positive requested CPU and memory (the
only deployments that reach evaluation, since `Validate` enforces `gt=0`
on requests), `CheckCostThreshold`'s per-deployment selection equals the
first match of the ordered chain High Memory Waste, High Memory Risk,
High CPU Waste, High CPU Risk; returning an `Option` it fires at most one
trigger, and an input satisfying several thresholds gets the first
matching reason. -/
theorem costTrigger_first_match (d : CostDeployment)
    (hC : 0 < d.CurrentRequests.CPUCores)
    (hM : 0 < d.CurrentRequests.MemoryMB) :
    costTriggerReason d = firstMatchReason d := by
  have hC' : d.CurrentRequests.CPUCores ≠ 0 := ne_of_gt hC
  have hM' : d.CurrentRequests.MemoryMB ≠ 0 := ne_of_gt hM
  simp only [costTriggerReason, firstMatchReason, priorityChain]
  rw [if_neg (by push_neg; exact ⟨hC', hM'⟩), if_pos hC, if_pos hC, if_pos hM, if_pos hM]
  by_cases h1 : (d.CurrentRequests.MemoryMB - d.CurrentUsage.MemoryMB) /
      d.CurrentRequests.MemoryMB > 0.5 <;>
    by_cases h2 : d.CurrentUsage.MemoryMB / d.CurrentRequests.MemoryMB > 0.85 <;>
    by_cases h3 : (d.CurrentRequests.CPUCores - d.CurrentUsage.CPUCores) /
        d.CurrentRequests.CPUCores > 0.5 <;>
    by_cases h4 : d.CurrentUsage.CPUCores / d.CurrentRequests.CPUCores > 0.85 <;>
    simp [h1, h2, h3, h4, List.find?]

/-- Witness for C3 (end-to-end scenario 2 of §8: CPU waste and memory risk
both above threshold; memory-first order selects "High Memory Risk"). -/
theorem costTrigger_first_match_witness :
    costTriggerReason ⟨"svc-b", ⟨1, 2048⟩, ⟨1/20, 2000⟩, none⟩ =
      firstMatchReason ⟨"svc-b", ⟨1, 2048⟩, ⟨1/20, 2000⟩, none⟩ :=
  costTrigger_first_match ⟨"svc-b", ⟨1, 2048⟩, ⟨1/20, 2000⟩, none⟩
    (by with_unfolding_all decide) (by with_unfolding_all decide)

/-! ## C7 — cooldown written only on successful publish -/

/-- C7. `executePush` overwrites the cooldown key with the current
Unix time exactly when `PublishJob` succeeded; on a failed push the store
keeps its queue and its cooldown bindings (only the publish-outcome oracle
advances), and `CheckCostThreshold`'s loop goes on with the next
deployment regardless. -/
theorem executePush_cooldown_on_success_only (now : Int) (key : String)
    (c : CostDeployment) (reason ns : String) (info : ClusterInfo) (st : Store) :
    ((popPub st).1 = true →
      executePush now key c reason ns info st =
        { st with
            pubOks := st.pubOks.tail
            queue := (⟨reason, ns, c, info⟩ : AgentJob) :: st.queue
            cooldown := setAssoc st.cooldown key (int64ToString now) }) ∧
    ((popPub st).1 = false →
      executePush now key c reason ns info st = { st with pubOks := st.pubOks.tail }) ∧
    (∀ (d : CostDeployment) (rest : List CostDeployment) (st2 : Store),
      checkCostThreshold now ns info (d :: rest) st2 =
        checkCostThreshold now ns info rest (evalCostDeployment now ns info d st2)) := by
  refine ⟨fun h => ?_, fun h => ?_, fun d rest st2 => rfl⟩
  · simp only [popPub, List.headD_eq_head?_getD] at h
    simp [executePush, popPub, h]
  · simp only [popPub, List.headD_eq_head?_getD] at h
    simp [executePush, popPub, h]

/-- Witness for C7: with the next publish attempt failing, a push for a
concrete deployment leaves queue and cooldown untouched. -/
theorem executePush_cooldown_on_success_only_witness :
    executePush 5 (cooldownKey "web") ⟨"web", ⟨1, 1⟩, ⟨0, 0⟩, none⟩ "High Memory Waste"
        "default" ⟨3, 1⟩ ⟨none, [], [], [false], true⟩ =
      ⟨none, [], [], [], true⟩ :=
  (executePush_cooldown_on_success_only 5 (cooldownKey "web")
    ⟨"web", ⟨1, 1⟩, ⟨0, 0⟩, none⟩ "High Memory Waste" "default" ⟨3, 1⟩
    ⟨none, [], [], [false], true⟩).2.1 rfl

/-! ## C4 — 30-minute cooldown suppression -/

/-- One step of the C4 argument: with the cooldown slot holding the string
written for time `t` and the clock strictly inside the 1800 s window,
`handleTrigger` changes nothing. -/
theorem handleTrigger_within_cooldown (now : Int) (c : CostDeployment)
    (reason ns : String) (info : ClusterInfo) (st : Store) (t : Int)
    (h0 : 0 ≤ t) (h1 : t ≤ int64Max)
    (hc : lookupAssoc st.cooldown (cooldownKey c.Name) = some (int64ToString t))
    (hnow : now < t + 1800) :
    handleTrigger now c reason ns info st = st := by
  simp only [handleTrigger, hc, parseInt64_int64ToString t h0 h1]
  rw [if_pos (by omega)]

/-- C4. After a cost-derived publish for deployment `d` at Unix time
`t` set `trigger:cooldown:<d.Name>` to `t`'s decimal string, any sequence
of further cost-derived trigger invocations for `d`, each observing a
clock strictly below `t + 1800`, leaves the store — queue included —
exactly as it was: no cost-derived job for `d` is published strictly
before `t + 1800`.  (`handleTrigger` reaches `executePush` only when the
key is absent or `now - last ≥ 1800`; here the key parses back to `t` and
the window is open, so every invocation is suppressed.) -/
theorem cooldown_suppresses_within_window (d : CostDeployment) (t : Int)
    (calls : List TriggerCall) (st : Store)
    (h0 : 0 ≤ t) (h1 : t ≤ int64Max)
    (hc : lookupAssoc st.cooldown (cooldownKey d.Name) = some (int64ToString t))
    (hcalls : ∀ e ∈ calls, e.now < t + 1800) :
    runTriggers d calls st = st := by
  induction calls with
  | nil => rfl
  | cons e es ih =>
    rw [runTriggers,
      handleTrigger_within_cooldown e.now d e.reason e.ns e.info st t h0 h1 hc
        (hcalls e (List.mem_cons_self e es))]
    exact ih fun e2 he2 => hcalls e2 (List.mem_cons_of_mem e he2)

/-- Witness for C4: cooldown set at `t = 1000`, one more trigger attempt
at `now = 2500 < 2800`; the store is unchanged. -/
theorem cooldown_suppresses_within_window_witness :
    runTriggers ⟨"web", ⟨1, 1⟩, ⟨0, 0⟩, none⟩
        [⟨2500, "High Memory Waste", "default", ⟨3, 1⟩⟩]
        ⟨none, [(cooldownKey "web", int64ToString 1000)], [], [], true⟩ =
      ⟨none, [(cooldownKey "web", int64ToString 1000)], [], [], true⟩ :=
  cooldown_suppresses_within_window ⟨"web", ⟨1, 1⟩, ⟨0, 0⟩, none⟩ 1000
    [⟨2500, "High Memory Waste", "default", ⟨3, 1⟩⟩]
    ⟨none, [(cooldownKey "web", int64ToString 1000)], [], [], true⟩
    (by with_unfolding_all decide) (by with_unfolding_all decide)
    (by with_unfolding_all decide)
    (by
      intro e he
      rw [List.mem_singleton] at he
      subst he
      with_unfolding_all decide)

/-! ## C6 — forecast evaluation neither reads nor writes cost/cooldown state -/

/-- Lemma: `executeForecastPush` commutes with overriding the cooldown map and
the `cost:latest` slot: it neither reads nor writes either. -/
theorem executeForecastPush_frame (c : CostDeployment) (reason ns : String)
    (info : ClusterInfo) (prediction : Resources) (st : Store)
    (m : List (String × String)) (l : Option CostPayload) :
    executeForecastPush c reason ns info prediction
        { st with cooldown := m, costLatest := l } =
      { executeForecastPush c reason ns info prediction st with
          cooldown := m, costLatest := l } := by
  simp only [executeForecastPush, popPub, List.headD_eq_head?_getD]
  by_cases h : st.pubOks.head?.getD true = true <;> simp [h]

/-- Lemma: `evaluateForecastLogic` commutes with overriding cooldown and
`cost:latest`: its branch conditions read only the two deployments. -/
theorem evaluateForecastLogic_frame (f : ForecastDeployment)
    (c : CostDeployment) (ns : String) (info : ClusterInfo) (st : Store)
    (m : List (String × String)) (l : Option CostPayload) :
    evaluateForecastLogic f c ns info { st with cooldown := m, costLatest := l } =
      { evaluateForecastLogic f c ns info st with cooldown := m, costLatest := l } := by
  simp only [evaluateForecastLogic]
  split_ifs <;> (first | rfl | exact executeForecastPush_frame ..)

/-- Lemma: `forecastLoop` commutes with overriding cooldown and `cost:latest`. -/
theorem forecastLoop_frame (costMap : List (String × CostDeployment))
    (ns : String) (info : ClusterInfo) (fs : List ForecastDeployment) :
    ∀ (st : Store) (m : List (String × String)) (l : Option CostPayload),
      forecastLoop costMap ns info fs { st with cooldown := m, costLatest := l } =
        { forecastLoop costMap ns info fs st with cooldown := m, costLatest := l } := by
  induction fs with
  | nil => intro st m l; rfl
  | cons f rest ih =>
    intro st m l
    rw [forecastLoop]
    rcases hl : lookupCostAssoc costMap f.Name with _ | costDep
    · simp only [forecastLoop, hl]
      exact ih st m l
    · simp only [forecastLoop, hl, evaluateForecastLogic_frame]
      exact ih (evaluateForecastLogic f costDep ns info st) m l

/-- C6. Forecast evaluation never touches the cost snapshot or the
cooldown keys: its resulting `cost:latest` slot and cooldown map are the
input ones, and the rest of its result — the published jobs in
particular — is insensitive to any override of those two components, so
every forecast-derived trigger publishes without consulting cooldown
state. -/
theorem forecast_frame (p : ForecastPayload) (costPayload : CostPayload)
    (st : Store) (m : List (String × String)) (l : Option CostPayload) :
    (checkForecastThreshold p costPayload st).costLatest = st.costLatest ∧
    (checkForecastThreshold p costPayload st).cooldown = st.cooldown ∧
    checkForecastThreshold p costPayload { st with cooldown := m, costLatest := l } =
      { checkForecastThreshold p costPayload st with cooldown := m, costLatest := l } := by
  have hframe := forecastLoop_frame (buildCostMap [] costPayload.Deployments)
    costPayload.Namespace costPayload.ClusterInfo p.Deployments
  refine ⟨?_, ?_, hframe st m l⟩
  · have h := congrArg Store.costLatest (hframe st st.cooldown st.costLatest)
    simpa using h
  · have h := congrArg Store.cooldown (hframe st st.cooldown st.costLatest)
    simpa using h

/-! ## C8 — zero-request deployments are skipped; published jobs carry a
non-zero request-side value -/

/-- Any job present after `executePush` was already queued or is the job
just built, whose deployment is `c`. -/
theorem executePush_queue_cases (now : Int) (key : String) (c : CostDeployment)
    (reason ns : String) (info : ClusterInfo) (st : Store) (j : AgentJob)
    (hj : j ∈ (executePush now key c reason ns info st).queue) :
    j ∈ st.queue ∨ j.Deployment = c := by
  simp only [executePush, popPub] at hj
  by_cases h : st.pubOks.headD true = true
  · rw [if_pos h] at hj
    rcases List.mem_cons.mp hj with h2 | h2
    · right; rw [h2]
    · left; exact h2
  · rw [if_neg h] at hj
    left; exact hj

/-- Any job present after `handleTrigger` was already queued or references
the triggering deployment. -/
theorem handleTrigger_queue_cases (now : Int) (c : CostDeployment)
    (reason ns : String) (info : ClusterInfo) (st : Store) (j : AgentJob)
    (hj : j ∈ (handleTrigger now c reason ns info st).queue) :
    j ∈ st.queue ∨ j.Deployment = c := by
  rw [handleTrigger] at hj
  rcases hl : lookupAssoc st.cooldown (cooldownKey c.Name) with _ | s
  · simp only [hl] at hj
    exact executePush_queue_cases _ _ _ _ _ _ _ _ hj
  · simp only [hl] at hj
    rcases hp : parseInt64 s with _ | last
    · simp only [hp] at hj; left; exact hj
    · simp only [hp] at hj
      by_cases hcool : now - last < 1800
      · rw [if_pos hcool] at hj; left; exact hj
      · rw [if_neg hcool] at hj
        exact executePush_queue_cases _ _ _ _ _ _ _ _ hj

/-- A deployment the chain selects a reason for passed the zero-request
skip. -/
theorem costTriggerReason_nonzero (d : CostDeployment)
    (h : costTriggerReason d ≠ none) :
    d.CurrentRequests.CPUCores ≠ 0 ∧ d.CurrentRequests.MemoryMB ≠ 0 := by
  by_contra hcon
  push_neg at hcon
  apply h
  rw [costTriggerReason]
  rw [if_pos]
  by_cases hC : d.CurrentRequests.CPUCores = 0
  · exact Or.inl hC
  · exact Or.inr (hcon hC)

/-- Any job present after one cost-loop iteration was already queued or
references a deployment with both requests non-zero. -/
theorem evalCostDeployment_queue_cases (now : Int) (ns : String)
    (info : ClusterInfo) (d : CostDeployment) (st : Store) (j : AgentJob)
    (hj : j ∈ (evalCostDeployment now ns info d st).queue) :
    j ∈ st.queue ∨ (j.Deployment.CurrentRequests.CPUCores ≠ 0 ∧
      j.Deployment.CurrentRequests.MemoryMB ≠ 0) := by
  rw [evalCostDeployment] at hj
  rcases hr : costTriggerReason d with _ | reason
  · simp only [hr] at hj; left; exact hj
  · simp only [hr] at hj
    rcases handleTrigger_queue_cases _ _ _ _ _ _ _ hj with h2 | h2
    · left; exact h2
    · right
      rw [h2]
      exact costTriggerReason_nonzero d (by rw [hr]; exact Option.some_ne_none reason)

/-- Queue membership after the full cost loop. -/
theorem checkCostThreshold_queue_cases (now : Int) (ns : String)
    (info : ClusterInfo) (ds : List CostDeployment) :
    ∀ (st : Store) (j : AgentJob), j ∈ (checkCostThreshold now ns info ds st).queue →
      j ∈ st.queue ∨ (j.Deployment.CurrentRequests.CPUCores ≠ 0 ∧
        j.Deployment.CurrentRequests.MemoryMB ≠ 0) := by
  induction ds with
  | nil => intro st j hj; left; exact hj
  | cons d rest ih =>
    intro st j hj
    rw [checkCostThreshold] at hj
    rcases ih _ _ hj with h2 | h2
    · exact evalCostDeployment_queue_cases now ns info d st j h2
    · right; exact h2

/-- Any job present after `executeForecastPush` was already queued or is
the forecast job for `c` (whose request fields are `c`'s). -/
theorem executeForecastPush_queue_cases (c : CostDeployment)
    (reason ns : String) (info : ClusterInfo) (prediction : Resources)
    (st : Store) (j : AgentJob)
    (hj : j ∈ (executeForecastPush c reason ns info prediction st).queue) :
    j ∈ st.queue ∨ j.Deployment.CurrentRequests = c.CurrentRequests := by
  simp only [executeForecastPush, popPub] at hj
  by_cases h : st.pubOks.headD true = true
  · rw [if_pos h] at hj
    rcases List.mem_cons.mp hj with h2 | h2
    · right; rw [h2]
    · left; exact h2
  · rw [if_neg h] at hj
    left; exact hj

/-- Any job present after `evaluateForecastLogic` was already queued or
references a deployment with a non-zero request-side value (the pushing
branches are guarded by `reqCpu > 0` resp. `reqMem > 0`). -/
theorem evaluateForecastLogic_queue_cases (f : ForecastDeployment)
    (c : CostDeployment) (ns : String) (info : ClusterInfo) (st : Store)
    (j : AgentJob) (hj : j ∈ (evaluateForecastLogic f c ns info st).queue) :
    j ∈ st.queue ∨ (j.Deployment.CurrentRequests.CPUCores ≠ 0 ∨
      j.Deployment.CurrentRequests.MemoryMB ≠ 0) := by
  rw [evaluateForecastLogic] at hj
  split_ifs at hj with h1 h2 h3 h4
  · rcases executeForecastPush_queue_cases _ _ _ _ _ _ _ hj with h | h
    · left; exact h
    · right; left; rw [h]; exact ne_of_gt h1.1
  · rcases executeForecastPush_queue_cases _ _ _ _ _ _ _ hj with h | h
    · left; exact h
    · right; left; rw [h]; exact ne_of_gt h2.1
  · rcases executeForecastPush_queue_cases _ _ _ _ _ _ _ hj with h | h
    · left; exact h
    · right; right; rw [h]; exact ne_of_gt h3.1
  · rcases executeForecastPush_queue_cases _ _ _ _ _ _ _ hj with h | h
    · left; exact h
    · right; right; rw [h]; exact ne_of_gt h4.1
  · left; exact hj

/-- Queue membership after the full forecast loop. -/
theorem forecastLoop_queue_cases (costMap : List (String × CostDeployment))
    (ns : String) (info : ClusterInfo) (fs : List ForecastDeployment) :
    ∀ (st : Store) (j : AgentJob), j ∈ (forecastLoop costMap ns info fs st).queue →
      j ∈ st.queue ∨ (j.Deployment.CurrentRequests.CPUCores ≠ 0 ∨
        j.Deployment.CurrentRequests.MemoryMB ≠ 0) := by
  induction fs with
  | nil => intro st j hj; left; exact hj
  | cons f rest ih =>
    intro st j hj
    rw [forecastLoop] at hj
    rcases hl : lookupCostAssoc costMap f.Name with _ | costDep
    · simp only [hl] at hj
      exact ih _ _ hj
    · simp only [hl] at hj
      rcases ih _ _ hj with h2 | h2
      · exact evaluateForecastLogic_queue_cases f costDep ns info st j h2
      · right; exact h2

/-- C8. Deployments whose requested CPU or memory is zero are skipped
by cost threshold evaluation (the store is untouched for them), and any
job either evaluation adds to `queue:agent:jobs` references a deployment
with a non-zero request-side value — both requests non-zero on the cost
path, at least one on the forecast path. -/
theorem zero_request_skip_and_nonzero_jobs (now : Int) (ns : String)
    (info : ClusterInfo) :
    (∀ (d : CostDeployment) (st : Store),
      (d.CurrentRequests.CPUCores = 0 ∨ d.CurrentRequests.MemoryMB = 0) →
        evalCostDeployment now ns info d st = st) ∧
    (∀ (ds : List CostDeployment) (st : Store) (j : AgentJob),
      j ∈ (checkCostThreshold now ns info ds st).queue →
        j ∈ st.queue ∨ (j.Deployment.CurrentRequests.CPUCores ≠ 0 ∧
          j.Deployment.CurrentRequests.MemoryMB ≠ 0)) ∧
    (∀ (p : ForecastPayload) (costPayload : CostPayload) (st : Store) (j : AgentJob),
      j ∈ (checkForecastThreshold p costPayload st).queue →
        j ∈ st.queue ∨ (j.Deployment.CurrentRequests.CPUCores ≠ 0 ∨
          j.Deployment.CurrentRequests.MemoryMB ≠ 0)) := by
  refine ⟨fun d st hz => ?_, checkCostThreshold_queue_cases now ns info,
    fun p costPayload st j hj => forecastLoop_queue_cases _ _ _ _ _ _ hj⟩
  rw [evalCostDeployment, costTriggerReason, if_pos hz]

/-- Witness for C8: a zero-CPU-request deployment leaves a concrete store
untouched. -/
theorem zero_request_skip_and_nonzero_jobs_witness :
    evalCostDeployment 0 "default" ⟨3, 1⟩ ⟨"zero", ⟨0, 512⟩, ⟨0, 500⟩, none⟩
        ⟨none, [], [], [], true⟩ =
      ⟨none, [], [], [], true⟩ :=
  (zero_request_skip_and_nonzero_jobs 0 "default" ⟨3, 1⟩).1
    ⟨"zero", ⟨0, 512⟩, ⟨0, 500⟩, none⟩ ⟨none, [], [], [], true⟩ (Or.inl rfl)

/-! ## C9 — non-default namespace gets 400 and no store mutation -/

/-- The `eq=default` tag: a payload naming another namespace fails
validation. -/
theorem validCostPayload_ns (p : CostPayload) (hp : p.Namespace ≠ "default") :
    validCostPayload p = false := by
  simp only [validCostPayload, Bool.and_eq_false_iff]
  left; left; left
  right
  exact beq_eq_false_iff_ne.mpr hp

/-- The `eq=default` tag on the forecast payload. -/
theorem validForecastPayload_ns (p : ForecastPayload)
    (hp : p.Namespace ≠ "default") : validForecastPayload p = false := by
  simp only [validForecastPayload, Bool.and_eq_false_iff]
  left; left
  right
  exact beq_eq_false_iff_ne.mpr hp

/-- C9. A cost or forecast request whose payload names a namespace
other than "default" is rejected by `Validate` before the aggregator is
reached: the handler answers 400 and returns the store exactly as it was
(no key — `cost:latest`, cooldown, or queue — is mutated). -/
theorem nondefault_namespace_rejected (now : Int) (p : CostPayload)
    (q : ForecastPayload) (st : Store)
    (hp : p.Namespace ≠ "default") (hq : q.Namespace ≠ "default") :
    (handleCostEngine now (some p) st).1.status = some 400 ∧
    (handleCostEngine now (some p) st).2 = st ∧
    (handleForecast (some q) st).1.status = some 400 ∧
    (handleForecast (some q) st).2 = st := by
  have h1 : validCostPayload p = false := validCostPayload_ns p hp
  have h2 : validForecastPayload q = false := validForecastPayload_ns q hq
  simp [handleCostEngine, handleForecast, h1, h2, httpError, writeHeader,
    writeBody, freshWriter]

/-- Witness for C9 (end-to-end scenario 6 of §8: namespace
"kube-system"). -/
theorem nondefault_namespace_rejected_witness :
    (handleCostEngine 0
        (some ⟨1, "kube-system", ⟨3, 1⟩, [⟨"svc-a", ⟨1, 512⟩, ⟨1, 110⟩, none⟩]⟩)
        ⟨none, [], [], [], true⟩).1.status = some 400 ∧
    (handleCostEngine 0
        (some ⟨1, "kube-system", ⟨3, 1⟩, [⟨"svc-a", ⟨1, 512⟩, ⟨1, 110⟩, none⟩]⟩)
        ⟨none, [], [], [], true⟩).2 = ⟨none, [], [], [], true⟩ ∧
    (handleForecast (some ⟨1, "kube-system", [⟨"svc-a", ⟨1, 80⟩⟩]⟩)
        ⟨none, [], [], [], true⟩).1.status = some 400 ∧
    (handleForecast (some ⟨1, "kube-system", [⟨"svc-a", ⟨1, 80⟩⟩]⟩)
        ⟨none, [], [], [], true⟩).2 = ⟨none, [], [], [], true⟩ :=
  nondefault_namespace_rejected 0
    ⟨1, "kube-system", ⟨3, 1⟩, [⟨"svc-a", ⟨1, 512⟩, ⟨1, 110⟩, none⟩]⟩
    ⟨1, "kube-system", [⟨"svc-a", ⟨1, 80⟩⟩]⟩ ⟨none, [], [], [], true⟩
    (by with_unfolding_all decide) (by with_unfolding_all decide)

/-! ## C1 — forecast ingest without a cost snapshot -/

/-- The example forecast payload used for the C1 counterexample: decodes
and validates, names only "svc-a". -/
def forecastNoSnapshotEx : ForecastPayload := ⟨1, "default", [⟨"svc-a", ⟨1, 80⟩⟩]⟩

/-- Counterexample to C1 as stated: with an empty store, a valid forecast
POST is answered with status **400**, not 500 — `handleForecast` passes
`http.StatusBadRequest` to `http.Error` on the `FetchPayload` error path
(and, lacking a `return`, appends the 201 body afterwards, the status
staying 400).  No job is published. -/
theorem forecast_no_snapshot_counterexample :
    validForecastPayload forecastNoSnapshotEx = true ∧
    (Store.mk none [] [] [] true).costLatest = none ∧
    (handleForecast (some forecastNoSnapshotEx) ⟨none, [], [], [], true⟩).1.status =
      some 400 ∧
    (handleForecast (some forecastNoSnapshotEx) ⟨none, [], [], [], true⟩).1.status ≠
      some 500 ∧
    (handleForecast (some forecastNoSnapshotEx) ⟨none, [], [], [], true⟩).2 =
      ⟨none, [], [], [], true⟩ := by
  with_unfolding_all decide

/-- C1 (amended). For every forecast ingest whose body decodes and
validates, if the store holds no `cost:latest` snapshot, the response
status is **400 Bad Request** (body "Failed to process forecast" followed,
through the missing `return`, by the 201 body) and the store — the job
queue in particular — is unchanged: no job is published to
`queue:agent:jobs`. -/
theorem forecast_no_snapshot_rejected (p : ForecastPayload) (st : Store)
    (hv : validForecastPayload p = true) (hs : st.costLatest = none) :
    (handleForecast (some p) st).1.status = some 400 ∧
    (handleForecast (some p) st).1.body =
      "Failed to process forecast\nForecast payload accepted" ∧
    (handleForecast (some p) st).2 = st := by
  simp [handleForecast, hv, fetchPayload, hs, httpError, writeHeader, writeBody,
    freshWriter]

/-- Witness for the amended C1 at the concrete counterexample input. -/
theorem forecast_no_snapshot_rejected_witness :
    (handleForecast (some forecastNoSnapshotEx) ⟨none, [], [], [], true⟩).1.status =
        some 400 ∧
      (handleForecast (some forecastNoSnapshotEx) ⟨none, [], [], [], true⟩).1.body =
        "Failed to process forecast\nForecast payload accepted" ∧
      (handleForecast (some forecastNoSnapshotEx) ⟨none, [], [], [], true⟩).2 =
        ⟨none, [], [], [], true⟩ :=
  forecast_no_snapshot_rejected forecastNoSnapshotEx ⟨none, [], [], [], true⟩
    (by with_unfolding_all decide) rfl

/-! ## C5 — the validator also rejects zero usage -/

/-- A cost payload whose only deployment reports zero CPU usage; every
other field satisfies the tags. -/
def costZeroUsageEx : CostPayload :=
  ⟨1, "default", ⟨3, 1⟩, [⟨"svc-a", ⟨1, 512⟩, ⟨0, 110⟩, none⟩]⟩

/-- The same payload with the usage made positive. -/
def costPosUsageEx : CostPayload :=
  ⟨1, "default", ⟨3, 1⟩, [⟨"svc-a", ⟨1, 512⟩, ⟨1/100, 110⟩, none⟩]⟩

/-- Counterexample to C5 as stated: `CurrentUsage` is a `Resources`, whose
fields carry `validate:"required,gt=0"`, so a zero usage field fails
validation even though the claim says it must succeed.  The positive-usage
variant of the same payload validates, isolating the zero usage as the
cause. -/
theorem usage_zero_fails_validation :
    validCostPayload costZeroUsageEx = false ∧
    validCostPayload costPosUsageEx = true := by
  with_unfolding_all decide

/-- C5 (amended). `Validate` requires strict positivity of every
tagged numeric field: the request and *usage* `cpu_cores`/`memory_mb` of
every deployment, `vm_count`, and `current_hourly_cost`.  A payload with
any of them `≤ 0` — zero usage included — fails validation. -/
theorem validation_rejects_nonpositive_numerics (p : CostPayload) :
    ((∃ d ∈ p.Deployments,
        d.CurrentRequests.CPUCores ≤ 0 ∨ d.CurrentRequests.MemoryMB ≤ 0 ∨
          d.CurrentUsage.CPUCores ≤ 0 ∨ d.CurrentUsage.MemoryMB ≤ 0) →
      validCostPayload p = false) ∧
    (p.ClusterInfo.VmCount ≤ 0 → validCostPayload p = false) ∧
    (p.ClusterInfo.Cost ≤ 0 → validCostPayload p = false) := by
  have key : validCostPayload p = true →
      (∀ d ∈ p.Deployments,
        0 < d.CurrentRequests.CPUCores ∧ 0 < d.CurrentRequests.MemoryMB ∧
          0 < d.CurrentUsage.CPUCores ∧ 0 < d.CurrentUsage.MemoryMB) ∧
      0 < p.ClusterInfo.VmCount ∧ 0 < p.ClusterInfo.Cost := by
    intro hv
    simp only [validCostPayload, validClusterInfo, Bool.and_eq_true,
      List.all_eq_true, decide_eq_true_eq] at hv
    refine ⟨fun d hd => ?_, hv.1.1.2.1, hv.1.1.2.2⟩
    have hd2 := hv.2 d hd
    simp only [validCostDeployment, validResources, Bool.and_eq_true,
      decide_eq_true_eq] at hd2
    exact ⟨hd2.1.1.2.1, hd2.1.1.2.2, hd2.1.2.1, hd2.1.2.2⟩
  refine ⟨?_, ?_, ?_⟩
  · rintro ⟨d, hd, hbad⟩
    cases hv : validCostPayload p
    · rfl
    · exfalso
      have h := (key hv).1 d hd
      rcases hbad with h1 | h1 | h1 | h1 <;> exact absurd h1 (not_le.mpr (by tauto))
  · intro hvm
    cases hv : validCostPayload p
    · rfl
    · exact absurd hvm (not_le.mpr (key hv).2.1)
  · intro hc
    cases hv : validCostPayload p
    · rfl
    · exact absurd hc (not_le.mpr (key hv).2.2)

/-- Witness for the amended C5 at the zero-usage payload. -/
theorem validation_rejects_nonpositive_numerics_witness :
    validCostPayload costZeroUsageEx = false :=
  (validation_rejects_nonpositive_numerics costZeroUsageEx).1
    ⟨⟨"svc-a", ⟨1, 512⟩, ⟨0, 110⟩, none⟩, by with_unfolding_all decide,
      Or.inr (Or.inr (Or.inl le_rfl))⟩

/-! ## C2 — the forecast memory safe-downscale rule never fires -/

/-- Forecast entry for the C2 failing input: predicted peak
`{cpu: 1/2, mem: 500}`. -/
def forecastMemEx : ForecastDeployment := ⟨"svc-a", ⟨1/2, 500⟩⟩

/-- Matching snapshot deployment: requests `{1, 1000}`, usage `{1, 100}`.
The CPU branch is silent (no capacity risk, zero CPU waste), memory is in
the claim's safe-downscale region: waste `(1000-100)/1000 = 0.9 > 0.4` and
`500 < 600`. -/
def costMemEx : CostDeployment := ⟨"svc-a", ⟨1, 1000⟩, ⟨1, 100⟩, none⟩

/-- C2. The claim (and §4.4.4 of the spec) requires a "Predicted Safe
Downscale (Memory)" job here: `rM > 0`, the CPU branch fires nothing,
`pM ≤ 0.9·rM`, `(rM−uM)/rM = 0.9 > 0.40` and `pM = 500 < 0.6·rM = 600`.
The source instead computes the memory waste from
`CurrentRequests.MemoryMB` (`usageMem := c.CurrentRequests.MemoryMB`), so
its waste is identically 0 and `evaluateForecastLogic` publishes nothing:
the store, publish oracle untouched, is returned unchanged. -/
theorem forecast_memory_downscale_never_fires :
    specMemorySafeDownscale forecastMemEx costMemEx = true ∧
    forecastMemEx.PredictPeak24h.MemoryMB ≤
      costMemEx.CurrentRequests.MemoryMB * (9 / 10) ∧
    0 < costMemEx.CurrentRequests.CPUCores ∧
    evaluateForecastLogic forecastMemEx costMemEx "default" ⟨3, 1⟩
        ⟨none, [], [], [], true⟩ =
      ⟨none, [], [], [], true⟩ := by
  with_unfolding_all decide

/-! ## C10 — corrupt cooldown value suppresses cost alerts -/

/-- C10. When the cooldown slot for the deployment holds a string that
`strconv.ParseInt` rejects, `handleTrigger` returns before pushing: the
store — queue, cooldown binding included — is exactly unchanged, so the
corrupt value keeps suppressing cost-derived alerts until something else
overwrites it. -/
theorem corrupt_cooldown_suppresses (now : Int) (c : CostDeployment)
    (reason ns : String) (info : ClusterInfo) (st : Store) (s : String)
    (hl : lookupAssoc st.cooldown (cooldownKey c.Name) = some s)
    (hp : parseInt64 s = none) :
    handleTrigger now c reason ns info st = st := by
  simp only [handleTrigger, hl, hp]

/-- Witness for C10: a concrete store whose cooldown slot holds
"corrupt". -/
theorem corrupt_cooldown_suppresses_witness :
    handleTrigger 50 ⟨"web", ⟨1, 1⟩, ⟨0, 0⟩, none⟩ "High Memory Waste" "default"
        ⟨3, 1⟩ ⟨none, [(cooldownKey "web", "corrupt")], [], [], true⟩ =
      ⟨none, [(cooldownKey "web", "corrupt")], [], [], true⟩ :=
  corrupt_cooldown_suppresses 50 ⟨"web", ⟨1, 1⟩, ⟨0, 0⟩, none⟩ "High Memory Waste"
    "default" ⟨3, 1⟩ ⟨none, [(cooldownKey "web", "corrupt")], [], [], true⟩ "corrupt"
    (by with_unfolding_all decide) (by with_unfolding_all decide)
